import Mathlib

/-!
Shallow embedding of `src/src/core/ddsc/src/shm_monitor.c` (Eclipse Cyclone DDS
shared-memory monitor) and proofs about its operations.

The embedding models:
- the monitor state machine (`shm_monitor_init`, `shm_monitor_destroy`,
  `shm_monitor_wake_and_invoke`, `shm_monitor_wake_and_disable`,
  `shm_monitor_wake_and_enable`, `shm_monitor_attach_reader`,
  `shm_monitor_detach_reader`);
- the wakeup-trigger callback (`shm_wakeup_trigger_callback`) and a trace
  semantics for trigger firings observed by the listener thread;
- the reception pipeline (`receive_data_wakeup_handler`) draining a reader's
  chunk source;
- the sequences of primitive actions (lock operations, field writes) each
  monitor operation performs, for lock-discipline properties.

External collaborators (the iceoryx listener/trigger/chunk-queue, the entity
index, the tkmap, the history cache) are modelled at their interfaces, as the
source uses them.
-/

/-- Run state of the monitor: `SHM_MONITOR_RUNNING` / `SHM_MONITOR_NOT_RUNNING`. -/
inductive RunState
  | Running
  | NotRunning
  deriving DecidableEq, Repr

/-- Return codes of the monitor operations as used in the source:
`DDS_RETCODE_OK` and `DDS_RETCODE_OUT_OF_RESOURCES`. -/
inductive dds_return_t
  | DDS_RETCODE_OK
  | DDS_RETCODE_OUT_OF_RESOURCES
  deriving DecidableEq, Repr

/-- Interface model of the iceoryx event listener: the set of attached
subscriber event sources (reader ids, in attachment order) and a fixed
capacity. `iox_listener_attach_subscriber_event` refuses a registration
exactly when the capacity is reached. -/
structure Listener where
  capacity : Nat
  attached : List Nat
  deriving DecidableEq, Repr

/-- `iox_listener_attach_subscriber_event` (interface model): registers the
reader's event source if capacity allows; returns the updated listener and
whether the result was `ListenerResult_SUCCESS`. -/
def iox_listener_attach_subscriber_event (l : Listener) (r : Nat) : Listener × Bool :=
  if l.attached.length < l.capacity then
    ({ l with attached := l.attached ++ [r] }, true)
  else
    (l, false)

/-- `iox_listener_detach_subscriber_event` (interface model): unregisters the
reader's event source. -/
def iox_listener_detach_subscriber_event (l : Listener) (r : Nat) : Listener :=
  { l with attached := l.attached.erase r }

/-- State of `shm_monitor_t` together with its wakeup trigger's extended
storage (`iox_user_trigger_storage_extension_t`): run state `m_state`,
attached-reader count `m_number_of_attached_readers`, the listener
`m_listener`, the trigger payload slot (`storage->call`, `storage->arg`), and
`pendingFirings`, the number of trigger firings
(`iox_user_trigger_trigger` calls) not yet observed by the listener thread.
Functions in the payload slot are identified by `Nat` ids, arguments by `Nat`
values.

The attached-reader count is modelled as `Int` so that decrements below zero
are observable.  Modelled from the spec: `shm_monitor_init` in the source
writes neither the count nor the payload slot (their declarations are in the
header `shm__monitor.h`, outside the excerpt); the spec's data model creates
the Monitor with no attached readers and an empty payload, which the model
takes as the initial values. -/
structure Monitor where
  m_state : RunState
  m_number_of_attached_readers : Int
  m_listener : Listener
  trigger_call : Option Nat
  trigger_arg : Nat
  pendingFirings : Nat
  deriving DecidableEq, Repr

/-- `iox_user_trigger_trigger`: fires the wakeup trigger; the firing is
observed later by the listener thread. -/
def iox_user_trigger_trigger (m : Monitor) : Monitor :=
  { m with pendingFirings := m.pendingFirings + 1 }

/-- `shm_monitor_init`: creates the lock, listener and wakeup trigger and sets
`m_state = SHM_MONITOR_RUNNING`. `cap` is the listener's capacity. -/
def shm_monitor_init (cap : Nat) : Monitor :=
  { m_state := RunState.Running
  , m_number_of_attached_readers := 0
  , m_listener := { capacity := cap, attached := [] }
  , trigger_call := none
  , trigger_arg := 0
  , pendingFirings := 0 }

/-- `shm_monitor_wake_and_invoke`: stores `(function, arg)` in the trigger's
extended storage, fires the trigger, returns `DDS_RETCODE_OK`. -/
def shm_monitor_wake_and_invoke (m : Monitor) (f : Nat) (a : Nat) :
    Monitor × dds_return_t :=
  (iox_user_trigger_trigger { m with trigger_call := some f, trigger_arg := a },
   dds_return_t.DDS_RETCODE_OK)

/-- `shm_monitor_wake_and_disable`: sets `m_state = SHM_MONITOR_NOT_RUNNING`,
fires the trigger, returns `DDS_RETCODE_OK`. -/
def shm_monitor_wake_and_disable (m : Monitor) : Monitor × dds_return_t :=
  (iox_user_trigger_trigger { m with m_state := RunState.NotRunning },
   dds_return_t.DDS_RETCODE_OK)

/-- `shm_monitor_wake_and_enable`: sets `m_state = SHM_MONITOR_RUNNING`,
fires the trigger, returns `DDS_RETCODE_OK`. -/
def shm_monitor_wake_and_enable (m : Monitor) : Monitor × dds_return_t :=
  (iox_user_trigger_trigger { m with m_state := RunState.Running },
   dds_return_t.DDS_RETCODE_OK)

/-- `shm_monitor_attach_reader`: attaches the reader's subscriber event to the
listener; on `ListenerResult_SUCCESS` increments
`m_number_of_attached_readers` and returns `DDS_RETCODE_OK`, otherwise logs
and returns `DDS_RETCODE_OUT_OF_RESOURCES` leaving the monitor unchanged.
The source takes no lock here. -/
def shm_monitor_attach_reader (m : Monitor) (r : Nat) : Monitor × dds_return_t :=
  let p := iox_listener_attach_subscriber_event m.m_listener r
  if p.2 then
    ({ m with m_listener := p.1
            , m_number_of_attached_readers := m.m_number_of_attached_readers + 1 },
     dds_return_t.DDS_RETCODE_OK)
  else
    (m, dds_return_t.DDS_RETCODE_OUT_OF_RESOURCES)

/-- `shm_monitor_detach_reader`: detaches the reader's subscriber event,
decrements `m_number_of_attached_readers`, returns `DDS_RETCODE_OK`.
The source takes no lock here and does not guard the decrement. -/
def shm_monitor_detach_reader (m : Monitor) (r : Nat) : Monitor × dds_return_t :=
  ({ m with m_listener := iox_listener_detach_subscriber_event m.m_listener r
          , m_number_of_attached_readers := m.m_number_of_attached_readers - 1 },
   dds_return_t.DDS_RETCODE_OK)

/-- `shm_wakeup_trigger_callback`: run by the listener thread when a trigger
firing is delivered; reads the extended storage and invokes
`storage->call(storage->arg)` only when `m_state == SHM_MONITOR_RUNNING` and
`storage->call` is non-null. Returns the invocation performed, if any; the
payload slot is not modified (in particular it is not cleared). -/
def shm_wakeup_trigger_callback (m : Monitor) : Option (Nat × Nat) :=
  match m.m_state, m.trigger_call with
  | RunState.Running, some f => some (f, m.trigger_arg)
  | _, _ => none

/-- Observation of one `shm_monitor_destroy` run. `spinGuardFirstRead` is the
value the busy-wait guard `monitor->m_state == SHM_MONITOR_RUNNING` has at its
first read; the wait exits as soon as it is false, and during the wait only
the calling thread writes `m_state` (the listener thread never writes it), so
a false first read means the wait performs zero iterations.
`listenerDeinitWithCallbackInFlight` records whether `iox_listener_deinit` and
`ddsrt_mutex_destroy` were reached while the listener thread still had a
callback in flight; the source reaches them unconditionally after the wait, so
this field simply echoes the ghost flag `callbackInFlight`. -/
structure DestroyRun where
  spinGuardFirstRead : Bool
  listenerDeinitWithCallbackInFlight : Bool
  deriving DecidableEq, Repr

/-- `shm_monitor_destroy`: calls `shm_monitor_wake_and_disable`, busy-waits
`while (monitor->m_state == SHM_MONITOR_RUNNING);`, then deinitializes the
listener and destroys the lock. `callbackInFlight` is a ghost flag telling
whether the listener thread is mid-callback when destroy is called; the source
never reads any signal from the listener thread, so the run is the same for
both values of the flag. -/
def shm_monitor_destroy (m : Monitor) (callbackInFlight : Bool) : DestroyRun :=
  let m1 := (shm_monitor_wake_and_disable m).1
  { spinGuardFirstRead := decide (m1.m_state = RunState.Running)
  , listenerDeinitWithCallbackInFlight := callbackInFlight }

/-- Operations touching the trigger, as observed in a cross-thread trace:
the three wake operations performed by caller threads, and `observeFiring`,
the listener thread consuming one pending trigger firing and running
`shm_wakeup_trigger_callback`. -/
inductive TriggerOp
  | wakeAndInvoke (f : Nat) (a : Nat)
  | wakeAndDisable
  | wakeAndEnable
  | observeFiring
  deriving DecidableEq, Repr

/-- One step of the trigger trace semantics: caller-thread operations update
the monitor per the source functions; `observeFiring` consumes a pending
firing (if any) and appends the callback's invocation (if any) to the log. -/
def triggerStep (m : Monitor) (log : List (Nat × Nat)) :
    TriggerOp → Monitor × List (Nat × Nat)
  | TriggerOp.wakeAndInvoke f a => ((shm_monitor_wake_and_invoke m f a).1, log)
  | TriggerOp.wakeAndDisable => ((shm_monitor_wake_and_disable m).1, log)
  | TriggerOp.wakeAndEnable => ((shm_monitor_wake_and_enable m).1, log)
  | TriggerOp.observeFiring =>
      if m.pendingFirings = 0 then (m, log)
      else
        let m1 := { m with pendingFirings := m.pendingFirings - 1 }
        match shm_wakeup_trigger_callback m1 with
        | some inv => (m1, log ++ [inv])
        | none => (m1, log)

/-- Runs a list of trigger operations from a monitor state and invocation
log, returning the final state and log. -/
def runTriggerOps (m : Monitor) (log : List (Nat × Nat)) :
    List TriggerOp → Monitor × List (Nat × Nat)
  | [] => (m, log)
  | op :: rest =>
      let p := triggerStep m log op
      runTriggerOps p.1 p.2 rest

/-- Layout of `iceoryx_header_t` at the front of every chunk, plus the chunk's
payload: the originating writer's GUID, the 64-bit timestamp `tstamp`, the
data-kind tag `data_kind`, and the (opaque) payload bytes, all modelled as
`Nat` values. -/
structure Chunk where
  guid : Nat
  tstamp : Nat
  data_kind : Nat
  payload : Nat
  deriving DecidableEq, Repr

/-- Model of `struct ddsi_serdata` as produced by `ddsi_serdata_from_iox` for
a chunk: it owns the chunk and carries a timestamp (`d->timestamp.v`) and
`d->statusinfo`. -/
structure Serdata where
  chunk : Chunk
  timestamp : Nat
  statusinfo : Nat
  deriving DecidableEq, Repr

/-- Model of `struct ddsi_writer_info` as built by `ddsi_make_writer_info`
from the proxy writer's entity, its QoS, and the sample's status info. -/
structure WriterInfo where
  pwr : Nat
  xqos : Nat
  statusinfo : Nat
  deriving DecidableEq, Repr

/-- Interface model of the collaborators `receive_data_wakeup_handler` calls:
`entity_index` is `entidx_lookup_proxy_writer_guid` (GUID to proxy-writer id,
`none` when unresolved), `pwr_xqos` gives a proxy writer's `c.xqos`,
`serdata_statusinfo` and `serdata_timestamp0` describe the serdata
`ddsi_serdata_from_iox` builds from a chunk (its status info and its
timestamp before the handler overwrites it with the header's `tstamp`), and
`tkmap_lookup` is `ddsi_tkmap_lookup_instance_ref` (serdata to instance
token, `none` on failure). -/
structure PipelineEnv where
  entity_index : Nat → Option Nat
  pwr_xqos : Nat → Nat
  serdata_statusinfo : Chunk → Nat
  serdata_timestamp0 : Chunk → Nat
  tkmap_lookup : Serdata → Option Nat

/-- `ddsi_serdata_from_iox` (interface model): builds a serdata owning the
chunk. -/
def ddsi_serdata_from_iox (env : PipelineEnv) (c : Chunk) : Serdata :=
  { chunk := c
  , timestamp := env.serdata_timestamp0 c
  , statusinfo := env.serdata_statusinfo c }

/-- Release operations the drain loop can perform on the objects derived from
a chunk: `ddsi_tkmap_instance_unref` on an instance token and
`ddsi_serdata_unref` on a sample (the sample owns the chunk). The source
contains no direct chunk-release call. -/
inductive ReleaseCall
  | tkmap_instance_unref (tk : Nat)
  | serdata_unref (d : Serdata)
  deriving DecidableEq, Repr

/-- Whether the release calls performed free the given chunk: the only way a
chunk is released in this code is `ddsi_serdata_unref` on the sample built
from it. -/
def chunkReleased (rels : List ReleaseCall) (c : Chunk) : Bool :=
  rels.any fun r =>
    match r with
    | ReleaseCall.serdata_unref d => d.chunk = c
    | _ => false

/-- One iteration of the drain loop of `receive_data_wakeup_handler` on a
chunk already taken from the chunk source, mirroring the source's control
flow. Returns the `ddsi_rhc_store` calls made, the release calls made, and
the number of `DDS_CLOG` messages emitted:
- proxy writer unresolved (`pwr == NULL`): log and `continue` — no store, no
  release call of any kind;
- `ddsi_tkmap_lookup_instance_ref` fails: log and `goto release` with
  `tk == NULL`, so only `ddsi_serdata_unref(d)` runs;
- otherwise: store `(wrinfo, d, tk)` into the rhc, then unref `tk` and `d`. -/
def receive_data_iteration (env : PipelineEnv) (c : Chunk) :
    List (WriterInfo × Serdata × Nat) × List ReleaseCall × Nat :=
  match env.entity_index c.guid with
  | none => ([], [], 1)
  | some pwr =>
      let d0 := ddsi_serdata_from_iox env c
      let d : Serdata := { d0 with timestamp := c.tstamp }
      match env.tkmap_lookup d with
      | none => ([], [ReleaseCall.serdata_unref d], 1)
      | some tk =>
          let wrinfo : WriterInfo :=
            { pwr := pwr, xqos := env.pwr_xqos pwr, statusinfo := d.statusinfo }
          ([(wrinfo, d, tk)],
           [ReleaseCall.tkmap_instance_unref tk, ReleaseCall.serdata_unref d],
           0)

/-- Cumulative effects of one `receive_data_wakeup_handler` invocation:
`stores` lists the `ddsi_rhc_store` calls in order, `releases` the release
calls, `logMessages` counts the `DDS_CLOG` messages, `taken` lists the chunks
taken from the chunk source in order, and `remaining` is the state of the
chunk source at the moment the loop's `break` executed. -/
structure DrainResult where
  stores : List (WriterInfo × Serdata × Nat)
  releases : List ReleaseCall
  logMessages : Nat
  taken : List Chunk
  remaining : List Chunk
  deriving DecidableEq, Repr

/-- `iox_sub_take_chunk` (interface model): takes the next available chunk
from the reader's chunk source, or reports no data
(`take_result != ChunkReceiveResult_SUCCESS`) when the source is empty. -/
def iox_sub_take_chunk : List Chunk → Option (Chunk × List Chunk)
  | [] => none
  | c :: rest => some (c, rest)

/-- `receive_data_wakeup_handler`: marks the thread awake, then loops taking
one chunk at a time (under the shm mutex) until `iox_sub_take_chunk` reports
no data, running `receive_data_iteration` on each taken chunk, then marks the
thread asleep. The chunk source is modelled as the list of chunks available
at entry, with no new arrivals mid-drain; `iox_sub_take_chunk` on it yields
exactly the head. -/
def receive_data_wakeup_handler (env : PipelineEnv) : List Chunk → DrainResult
  | [] => { stores := [], releases := [], logMessages := 0, taken := [], remaining := [] }
  | c :: rest =>
      let step := receive_data_iteration env c
      let r := receive_data_wakeup_handler env rest
      { stores := step.1 ++ r.stores
      , releases := step.2.1 ++ r.releases
      , logMessages := step.2.2 + r.logMessages
      , taken := c :: r.taken
      , remaining := r.remaining }

/-- Primitive actions a monitor operation performs, in program order, for
stating lock-discipline properties: acquiring/releasing `monitor->m_lock`,
attaching/detaching a listener event source, writing the attached-reader
count, writing the run-state flag, firing the wakeup trigger, and logging. -/
inductive MAction
  | lockAcquire
  | lockRelease
  | listenerAttachEvent (ok : Bool)
  | listenerDetachEvent
  | countWrite (delta : Int)
  | stateWrite (s : RunState)
  | triggerFire
  | logMsg
  deriving DecidableEq, Repr

/-- Action sequence of `shm_monitor_attach_reader` as written in the source,
for a call where the listener accepts (`ok = true`) or refuses (`ok = false`)
the registration: attach the subscriber event, then either increment the
count or log and return. No lock operation appears in the source. -/
def attach_reader_actions (ok : Bool) : List MAction :=
  if ok then [MAction.listenerAttachEvent true, MAction.countWrite 1]
  else [MAction.listenerAttachEvent false, MAction.logMsg]

/-- Action sequence of `shm_monitor_detach_reader` as written in the source:
detach the subscriber event, then decrement the count. No lock operation
appears in the source. -/
def detach_reader_actions : List MAction :=
  [MAction.listenerDetachEvent, MAction.countWrite (-1)]

/-- Action sequence of `shm_monitor_wake_and_disable` as written in the
source: write `SHM_MONITOR_NOT_RUNNING` to `m_state`, fire the trigger. -/
def wake_and_disable_actions : List MAction :=
  [MAction.stateWrite RunState.NotRunning, MAction.triggerFire]

/-- Action sequence of `shm_monitor_wake_and_enable` as written in the
source: write `SHM_MONITOR_RUNNING` to `m_state`, fire the trigger. -/
def wake_and_enable_actions : List MAction :=
  [MAction.stateWrite RunState.Running, MAction.triggerFire]

/-- Checks that every write of the attached-reader count and of the run-state
flag in the action list happens while the monitor's lock is held; `held`
tells whether the lock is held before the first action. -/
def writesUnderLock (held : Bool) : List MAction → Bool
  | [] => true
  | MAction.lockAcquire :: rest => writesUnderLock true rest
  | MAction.lockRelease :: rest => writesUnderLock false rest
  | MAction.countWrite _ :: rest => held && writesUnderLock held rest
  | MAction.stateWrite _ :: rest => held && writesUnderLock held rest
  | _ :: rest => writesUnderLock held rest

/-- Operations on the attach/detach bookkeeping, for running call sequences
against the monitor. -/
inductive RegOp
  | attach (r : Nat)
  | detach (r : Nat)
  deriving DecidableEq, Repr

/-- Runs a sequence of attach/detach calls against the monitor. -/
def runRegOps (m : Monitor) : List RegOp → Monitor
  | [] => m
  | RegOp.attach r :: rest => runRegOps (shm_monitor_attach_reader m r).1 rest
  | RegOp.detach r :: rest => runRegOps (shm_monitor_detach_reader m r).1 rest

/-- Number of attach calls in the sequence that return `DDS_RETCODE_OK` when
the sequence is run from monitor state `m`. -/
def successfulAttaches (m : Monitor) : List RegOp → Nat
  | [] => 0
  | RegOp.attach r :: rest =>
      let p := shm_monitor_attach_reader m r
      (if p.2 = dds_return_t.DDS_RETCODE_OK then 1 else 0) + successfulAttaches p.1 rest
  | RegOp.detach r :: rest => successfulAttaches (shm_monitor_detach_reader m r).1 rest

/-- Number of detach calls in the sequence. -/
def detachCount : List RegOp → Nat
  | [] => 0
  | RegOp.attach _ :: rest => detachCount rest
  | RegOp.detach _ :: rest => 1 + detachCount rest

/-- C6: for a reader with chunks `cs` available on its chunk source before the
event fires and no new chunks arriving mid-drain, one
`receive_data_wakeup_handler` invocation takes and processes all of them
before returning, and its drain loop exits only when `iox_sub_take_chunk`
reports no data. -/
theorem receive_data_drains_to_exhaustion (env : PipelineEnv) (cs : List Chunk) :
    (receive_data_wakeup_handler env cs).taken = cs ∧
    iox_sub_take_chunk (receive_data_wakeup_handler env cs).remaining = none := by
  induction cs with
  | nil => exact ⟨rfl, rfl⟩
  | cons c rest ih =>
      refine ⟨?_, ?_⟩
      · simpa [receive_data_wakeup_handler] using ih.1
      · simpa [receive_data_wakeup_handler] using ih.2

/-- C7: `shm_monitor_attach_reader` returns `DDS_RETCODE_OUT_OF_RESOURCES`
exactly when the listener refuses the registration; on that failure the
monitor (its count and its listener registrations) is unchanged, and on
success the reader's event source is registered and the attached-reader count
is incremented by one. -/
theorem attach_reader_exhaustion_spec (m : Monitor) (r : Nat) :
    ((shm_monitor_attach_reader m r).2 = dds_return_t.DDS_RETCODE_OUT_OF_RESOURCES
        ↔ ¬ m.m_listener.attached.length < m.m_listener.capacity) ∧
    ((shm_monitor_attach_reader m r).2 = dds_return_t.DDS_RETCODE_OUT_OF_RESOURCES
        → (shm_monitor_attach_reader m r).1 = m) ∧
    ((shm_monitor_attach_reader m r).2 = dds_return_t.DDS_RETCODE_OK
        → (shm_monitor_attach_reader m r).1.m_number_of_attached_readers
              = m.m_number_of_attached_readers + 1
          ∧ (shm_monitor_attach_reader m r).1.m_listener.attached
              = m.m_listener.attached ++ [r]) := by
  by_cases h : m.m_listener.attached.length < m.m_listener.capacity <;>
    simp [shm_monitor_attach_reader, iox_listener_attach_subscriber_event, h]

/-- Closed instance of `attach_reader_exhaustion_spec` at a fresh monitor with
capacity 2 and reader 3: the success conclusion holds, discharging the
`DDS_RETCODE_OK` hypothesis by evaluation. -/
theorem attach_reader_exhaustion_spec_witness :
    (shm_monitor_attach_reader (shm_monitor_init 2) 3).1.m_number_of_attached_readers
        = (shm_monitor_init 2).m_number_of_attached_readers + 1 ∧
    (shm_monitor_attach_reader (shm_monitor_init 2) 3).1.m_listener.attached
        = (shm_monitor_init 2).m_listener.attached ++ [3] :=
  (attach_reader_exhaustion_spec (shm_monitor_init 2) 3).2.2 (by rfl)

/-- C8: whenever `ddsi_tkmap_lookup_instance_ref` fails for the sample built
from a chunk whose writer resolved, the iteration stores nothing, releases
exactly the sample (`ddsi_serdata_unref`), logs one anomaly, and the drain
continues with the remaining chunks. -/
theorem tkmap_failure_releases_sample (env : PipelineEnv) (c : Chunk)
    (cs : List Chunk) (pwr : Nat)
    (hpwr : env.entity_index c.guid = some pwr)
    (htk : env.tkmap_lookup
        { chunk := c, timestamp := c.tstamp, statusinfo := env.serdata_statusinfo c }
        = none) :
    receive_data_iteration env c
        = ([], [ReleaseCall.serdata_unref
            { chunk := c, timestamp := c.tstamp, statusinfo := env.serdata_statusinfo c }], 1) ∧
    (receive_data_wakeup_handler env (c :: cs)).stores
        = (receive_data_wakeup_handler env cs).stores ∧
    (receive_data_wakeup_handler env (c :: cs)).logMessages
        = 1 + (receive_data_wakeup_handler env cs).logMessages ∧
    (receive_data_wakeup_handler env (c :: cs)).taken
        = c :: (receive_data_wakeup_handler env cs).taken := by
  have hit : receive_data_iteration env c
      = ([], [ReleaseCall.serdata_unref
          { chunk := c, timestamp := c.tstamp, statusinfo := env.serdata_statusinfo c }], 1) := by
    simp [receive_data_iteration, ddsi_serdata_from_iox, hpwr, htk]
  refine ⟨hit, ?_, ?_, ?_⟩ <;> simp [receive_data_wakeup_handler, hit]

/-- Environment for the tkmap-failure witness: every GUID resolves to proxy
writer 5 and every tkmap lookup fails. -/
def envTkFail : PipelineEnv :=
  { entity_index := fun _ => some 5
  , pwr_xqos := fun _ => 0
  , serdata_statusinfo := fun _ => 0
  , serdata_timestamp0 := fun _ => 0
  , tkmap_lookup := fun _ => none }

/-- Concrete chunk for the tkmap-failure witness. -/
def chunkA : Chunk := { guid := 1, tstamp := 2, data_kind := 3, payload := 4 }

/-- Closed instance of `tkmap_failure_releases_sample` at `envTkFail` and
`chunkA`, discharging both lookup hypotheses by evaluation. -/
theorem tkmap_failure_releases_sample_witness :
    receive_data_iteration envTkFail chunkA
        = ([], [ReleaseCall.serdata_unref
            { chunk := chunkA, timestamp := chunkA.tstamp
            , statusinfo := envTkFail.serdata_statusinfo chunkA }], 1) ∧
    (receive_data_wakeup_handler envTkFail [chunkA]).stores
        = (receive_data_wakeup_handler envTkFail []).stores ∧
    (receive_data_wakeup_handler envTkFail [chunkA]).logMessages
        = 1 + (receive_data_wakeup_handler envTkFail []).logMessages ∧
    (receive_data_wakeup_handler envTkFail [chunkA]).taken
        = chunkA :: (receive_data_wakeup_handler envTkFail []).taken :=
  tkmap_failure_releases_sample envTkFail chunkA [] 5 rfl rfl

/-- C9: `shm_wakeup_trigger_callback` invokes the stored payload only when the
monitor's state is `Running` and the stored function pointer is non-null; in
particular firing the trigger via `shm_monitor_wake_and_enable` with an empty
payload slot invokes nothing even though the monitor is then `Running`. -/
theorem trigger_callback_guard (m : Monitor) (cap : Nat) :
    (∀ f a, shm_wakeup_trigger_callback m = some (f, a)
        → m.m_state = RunState.Running ∧ m.trigger_call = some f ∧ m.trigger_arg = a) ∧
    (m.trigger_call = none → shm_wakeup_trigger_callback m = none) ∧
    (m.m_state = RunState.NotRunning → shm_wakeup_trigger_callback m = none) ∧
    (runTriggerOps (shm_monitor_init cap) []
        [TriggerOp.wakeAndEnable, TriggerOp.observeFiring]).2 = [] := by
  refine ⟨?_, ?_, ?_, rfl⟩
  · intro f a h
    cases hm : m.m_state <;> cases hc : m.trigger_call <;>
      simp [shm_wakeup_trigger_callback, hm, hc] at h ⊢
    exact ⟨h.1, h.2⟩
  · intro hc
    cases hm : m.m_state <;> simp [shm_wakeup_trigger_callback, hm, hc]
  · intro hm
    cases hc : m.trigger_call <;> simp [shm_wakeup_trigger_callback, hm, hc]

/-- Monitor used by the trigger-callback witness: running, payload `(7, 3)`
stored. -/
def monitorWithPayload : Monitor :=
  { m_state := RunState.Running
  , m_number_of_attached_readers := 0
  , m_listener := { capacity := 1, attached := [] }
  , trigger_call := some 7
  , trigger_arg := 3
  , pendingFirings := 0 }

/-- Closed instance of `trigger_callback_guard`: at `monitorWithPayload` the
callback invokes `(7, 3)`, and the first conjunct's hypothesis is discharged
by evaluation. -/
theorem trigger_callback_guard_witness :
    monitorWithPayload.m_state = RunState.Running ∧
    monitorWithPayload.trigger_call = some 7 ∧
    monitorWithPayload.trigger_arg = 3 :=
  (trigger_callback_guard monitorWithPayload 1).1 7 3 rfl

/-- C10: `shm_monitor_attach_reader` and `shm_monitor_detach_reader` never
read the monitor's run state: their return values and effects are the same
for any value of `m_state` (the outcome commutes with overwriting `m_state`),
and detach always unregisters the event source, decrements the count, and
returns `DDS_RETCODE_OK`. -/
theorem attach_detach_ignore_run_state (m : Monitor) (r : Nat) (s : RunState) :
    (shm_monitor_attach_reader { m with m_state := s } r).2
        = (shm_monitor_attach_reader m r).2 ∧
    (shm_monitor_attach_reader { m with m_state := s } r).1
        = { (shm_monitor_attach_reader m r).1 with m_state := s } ∧
    (shm_monitor_detach_reader { m with m_state := s } r).2
        = dds_return_t.DDS_RETCODE_OK ∧
    (shm_monitor_detach_reader { m with m_state := s } r).1.m_number_of_attached_readers
        = m.m_number_of_attached_readers - 1 ∧
    (shm_monitor_detach_reader { m with m_state := s } r).1.m_listener.attached
        = m.m_listener.attached.erase r := by
  by_cases h : m.m_listener.attached.length < m.m_listener.capacity <;>
    simp [shm_monitor_attach_reader, shm_monitor_detach_reader,
          iox_listener_attach_subscriber_event, iox_listener_detach_subscriber_event, h]

/-- C1: the busy-wait in `shm_monitor_destroy` re-reads only the `m_state`
flag that the calling thread itself just set via
`shm_monitor_wake_and_disable`, so its guard is already false at the first
read (the wait performs zero iterations), the run is identical whether or not
the listener thread still has a callback in flight, and
`iox_listener_deinit`/`ddsrt_mutex_destroy` are reached even while a callback
is in flight — there is no quiescence signal from the listener thread. -/
theorem destroy_has_no_listener_handshake (m : Monitor) :
    (shm_monitor_destroy m true).spinGuardFirstRead = false ∧
    (shm_monitor_destroy m true).listenerDeinitWithCallbackInFlight = true ∧
    (shm_monitor_destroy m true).spinGuardFirstRead
        = (shm_monitor_destroy m false).spinGuardFirstRead :=
  ⟨rfl, rfl, rfl⟩

/-- C2: when the proxy writer of a taken chunk cannot be resolved
(`pwr == NULL`), the iteration stores nothing, logs once, and the drain
continues with the remaining chunks — but it performs no release call at all
for that chunk (`receive_data_iteration` returns an empty release list), so
the chunk is not released on this path. -/
theorem unresolved_writer_skips_without_release (env : PipelineEnv) (c : Chunk)
    (cs : List Chunk) (h : env.entity_index c.guid = none) :
    receive_data_iteration env c = ([], [], 1) ∧
    (receive_data_wakeup_handler env (c :: cs)).stores
        = (receive_data_wakeup_handler env cs).stores ∧
    (receive_data_wakeup_handler env (c :: cs)).releases
        = (receive_data_wakeup_handler env cs).releases ∧
    (receive_data_wakeup_handler env (c :: cs)).taken
        = c :: (receive_data_wakeup_handler env cs).taken ∧
    chunkReleased (receive_data_wakeup_handler env [c]).releases c = false := by
  have hit : receive_data_iteration env c = ([], [], 1) := by
    simp [receive_data_iteration, h]
  refine ⟨hit, ?_, ?_, ?_, ?_⟩ <;>
    simp [receive_data_wakeup_handler, hit, chunkReleased]

/-- Environment for the unresolved-writer witness: no GUID resolves. -/
def envUnresolved : PipelineEnv :=
  { entity_index := fun _ => none
  , pwr_xqos := fun _ => 0
  , serdata_statusinfo := fun _ => 0
  , serdata_timestamp0 := fun _ => 0
  , tkmap_lookup := fun _ => none }

/-- Concrete chunk for the unresolved-writer witness. -/
def chunkB : Chunk := { guid := 9, tstamp := 8, data_kind := 7, payload := 6 }

/-- Closed instance of `unresolved_writer_skips_without_release` at
`envUnresolved` and `chunkB`, discharging the lookup hypothesis by
evaluation: the single-chunk drain releases nothing. -/
theorem unresolved_writer_skips_without_release_witness :
    receive_data_iteration envUnresolved chunkB = ([], [], 1) ∧
    (receive_data_wakeup_handler envUnresolved [chunkB]).stores
        = (receive_data_wakeup_handler envUnresolved []).stores ∧
    (receive_data_wakeup_handler envUnresolved [chunkB]).releases
        = (receive_data_wakeup_handler envUnresolved []).releases ∧
    (receive_data_wakeup_handler envUnresolved [chunkB]).taken
        = chunkB :: (receive_data_wakeup_handler envUnresolved []).taken ∧
    chunkReleased (receive_data_wakeup_handler envUnresolved [chunkB]).releases chunkB
        = false :=
  unresolved_writer_skips_without_release envUnresolved chunkB [] rfl

/-- C3 counterexample: one `shm_monitor_wake_and_invoke` call with payload
`(7, 3)`, its firing observed while running, then a
`shm_monitor_wake_and_enable` whose firing is also observed: the payload is
invoked twice although the trace contains exactly one wake-and-invoke call —
a trigger firing other than the one caused by the wake-and-invoke call
invokes `f(a)` again. -/
theorem wake_and_invoke_reinvoked_by_later_firing :
    (runTriggerOps (shm_monitor_init 4) []
        [TriggerOp.wakeAndInvoke 7 3, TriggerOp.observeFiring,
         TriggerOp.wakeAndEnable, TriggerOp.observeFiring]).2 = [(7, 3), (7, 3)] ∧
    ([TriggerOp.wakeAndInvoke 7 3, TriggerOp.observeFiring,
      TriggerOp.wakeAndEnable, TriggerOp.observeFiring].count
        (TriggerOp.wakeAndInvoke 7 3)) = 1 := by
  decide

/-- C3 (amended): a wake-and-invoke whose firing is observed while the
monitor is running yields exactly one invocation of `(f, a)`, and zero
invocations result if the monitor was disabled before the firing is observed;
but the callback never clears the payload slot (`trigger_call` is still
`some f` afterwards), so any later observed firing — here one caused by
`shm_monitor_wake_and_enable` — invokes `(f, a)` again. -/
theorem wake_and_invoke_per_observed_firing (f a cap : Nat) :
    (runTriggerOps (shm_monitor_init cap) []
        [TriggerOp.wakeAndInvoke f a, TriggerOp.observeFiring]).2 = [(f, a)] ∧
    (runTriggerOps (shm_monitor_init cap) []
        [TriggerOp.wakeAndInvoke f a, TriggerOp.wakeAndDisable,
         TriggerOp.observeFiring]).2 = [] ∧
    (runTriggerOps (shm_monitor_init cap) []
        [TriggerOp.wakeAndInvoke f a, TriggerOp.observeFiring]).1.trigger_call
        = some f ∧
    (runTriggerOps (shm_monitor_init cap) []
        [TriggerOp.wakeAndInvoke f a, TriggerOp.observeFiring,
         TriggerOp.wakeAndEnable, TriggerOp.observeFiring]).2 = [(f, a), (f, a)] :=
  ⟨rfl, rfl, rfl, rfl⟩

/-- C4: none of the mutations the source performs on the attached-reader
count (`shm_monitor_attach_reader`, `shm_monitor_detach_reader`) or on the
run-state flag (`shm_monitor_wake_and_disable`,
`shm_monitor_wake_and_enable`) happens while the monitor's lock is held —
their action sequences contain no lock acquisition at all. -/
theorem monitor_writes_not_under_lock :
    writesUnderLock false (attach_reader_actions true) = false ∧
    writesUnderLock false detach_reader_actions = false ∧
    writesUnderLock false wake_and_disable_actions = false ∧
    writesUnderLock false wake_and_enable_actions = false ∧
    (attach_reader_actions true).count MAction.lockAcquire = 0 ∧
    detach_reader_actions.count MAction.lockAcquire = 0 ∧
    wake_and_disable_actions.count MAction.lockAcquire = 0 ∧
    wake_and_enable_actions.count MAction.lockAcquire = 0 := by
  decide

/-- Accounting lemma for attach/detach sequences: running any sequence of
calls from any monitor state changes the attached-reader count by the number
of successful attach calls minus the number of detach calls. -/
theorem runRegOps_count (ops : List RegOp) : ∀ m : Monitor,
    (runRegOps m ops).m_number_of_attached_readers
        = m.m_number_of_attached_readers
          + (successfulAttaches m ops : Int) - (detachCount ops : Int) := by
  induction ops with
  | nil => intro m; simp [runRegOps, successfulAttaches, detachCount]
  | cons op rest ih =>
      intro m
      cases op with
      | attach r =>
          by_cases h : m.m_listener.attached.length < m.m_listener.capacity
          · simp [runRegOps, successfulAttaches, shm_monitor_attach_reader,
                  iox_listener_attach_subscriber_event, h, detachCount, ih]
            ring
          · simp [runRegOps, successfulAttaches, shm_monitor_attach_reader,
                  iox_listener_attach_subscriber_event, h, detachCount, ih]
      | detach r =>
          simp [runRegOps, successfulAttaches, detachCount,
                shm_monitor_detach_reader, ih]
          ring

/-- C5 counterexample: the call sequence consisting of a single
`shm_monitor_detach_reader` call, starting from `shm_monitor_init`, drives
the attached-reader count to `-1` — the count does become negative. -/
theorem attached_reader_count_goes_negative :
    (runRegOps (shm_monitor_init 1) [RegOp.detach 0]).m_number_of_attached_readers
        = -1 := by
  decide

/-- C5 (amended): for every sequence of attach/detach calls from
`shm_monitor_init` with no concurrent callback activity, the attached-reader
count equals the number of successful attach calls minus the number of detach
calls; and provided no prefix of the sequence contains more detach calls than
successful attach calls, the count is never negative at any point of the
run. -/
theorem attached_reader_count_correct (cap : Nat) (ops : List RegOp)
    (h : ∀ n, n ≤ ops.length →
        detachCount (ops.take n)
          ≤ successfulAttaches (shm_monitor_init cap) (ops.take n)) :
    (runRegOps (shm_monitor_init cap) ops).m_number_of_attached_readers
        = (successfulAttaches (shm_monitor_init cap) ops : Int)
          - (detachCount ops : Int) ∧
    ∀ n, 0 ≤ (runRegOps (shm_monitor_init cap)
        (ops.take n)).m_number_of_attached_readers := by
  constructor
  · simpa [shm_monitor_init] using runRegOps_count ops (shm_monitor_init cap)
  · intro n
    have h1 := runRegOps_count (ops.take n) (shm_monitor_init cap)
    have h2 : detachCount (ops.take n)
        ≤ successfulAttaches (shm_monitor_init cap) (ops.take n) := by
      rcases le_or_lt n ops.length with hn | hn
      · exact h n hn
      · have heq : ops.take n = ops := List.take_of_length_le (le_of_lt hn)
        have hfull := h ops.length le_rfl
        rw [heq]
        simpa [List.take_length] using hfull
    rw [h1]
    have h0 : (shm_monitor_init cap).m_number_of_attached_readers = 0 := rfl
    rw [h0]
    omega

/-- Closed instance of `attached_reader_count_correct` at capacity 1 and the
sequence attach-then-detach, discharging the prefix hypothesis by
evaluation. -/
theorem attached_reader_count_correct_witness :
    (runRegOps (shm_monitor_init 1)
        [RegOp.attach 0, RegOp.detach 0]).m_number_of_attached_readers
        = (successfulAttaches (shm_monitor_init 1) [RegOp.attach 0, RegOp.detach 0] : Int)
          - (detachCount [RegOp.attach 0, RegOp.detach 0] : Int) ∧
    0 ≤ (runRegOps (shm_monitor_init 1)
        ([RegOp.attach 0, RegOp.detach 0].take 1)).m_number_of_attached_readers := by
  have h := attached_reader_count_correct 1 [RegOp.attach 0, RegOp.detach 0] (by decide)
  exact ⟨h.1, h.2 1⟩
